import Mathlib

/-!
Shallow embedding of the computational core of the facility-electrification
dashboard: the summary-statistics extractor
(`src/facilities_helper_summary_statistics.py`, `extract_facility_summary`)
and the change-log builder
(`src/facilities_helper_change_log.py`, `render_facility_change_log`, whose
data computation we embed as `buildChangeLog`).

Dates are modelled as natural numbers `y * 10000 + m * 100 + d` (the order of
these keys agrees with calendar order for any date `pandas.to_datetime`
accepts, since months and days are below 100 and representable years below
10000).  Counts are integers; ratios are rationals; pandas `NaN` cells are
`Option.none`.  Python's banker's rounding (`round`, `Series.round`) is
modelled by `roundHalfEven`.
-/

/-- A row of the snapshot table: columns `date`, `status`, `type`,
`n_facilities`.  (`type` is a Lean keyword, so the field is `ftype`.) -/
structure Row where
  date : Nat
  status : String
  ftype : String
  n_facilities : Int
deriving Repr, DecidableEq

/-- Encode a calendar date as `y * 10000 + m * 100 + d`. -/
def mkDate (y m d : Nat) : Nat := y * 10000 + m * 100 + d

/-- The decimal digit character for `n % 10`-style arguments below 10. -/
def digitChar : Nat → Char
  | 0 => '0' | 1 => '1' | 2 => '2' | 3 => '3' | 4 => '4'
  | 5 => '5' | 6 => '6' | 7 => '7' | 8 => '8' | _ => '9'

/-- Zero-padded 4-digit rendering, as `strftime` `%Y` on 4-digit years. -/
def pad4 (n : Nat) : String :=
  String.mk [digitChar (n / 1000 % 10), digitChar (n / 100 % 10),
             digitChar (n / 10 % 10), digitChar (n % 10)]

/-- Zero-padded 2-digit rendering, as `strftime` `%m` / `%d`. -/
def pad2 (n : Nat) : String :=
  String.mk [digitChar (n / 10 % 10), digitChar (n % 10)]

/-- `d.strftime("%Y-%m-%d")` on an encoded date. -/
def dateStr (n : Nat) : String :=
  pad4 (n / 10000) ++ "-" ++ pad2 (n / 100 % 100) ++ "-" ++ pad2 (n % 100)

/-- Python `str.lower()`: lowercase every character. -/
def lowerStr (s : String) : String :=
  String.mk (s.data.map Char.toLower)

/-- Python `dict.get(k, default)` over an association list. -/
def dictGet (t : List (String × Int)) (k : String) (dflt : Int) : Int :=
  match t.lookup k with
  | some v => v
  | none => dflt

/-- The type filter of `extract_facility_summary` lines 7-9: keep all rows for
the sentinel `"Total"` (case-insensitive), otherwise keep rows whose `type`
matches the requested facility type case-insensitively. -/
def filterType (df : List Row) (facility_type : String) : List Row :=
  if lowerStr facility_type == "total" then df
  else df.filter (fun r => lowerStr r.ftype == lowerStr facility_type)

/-- Ascending list of the distinct dates of a list (the index of the
`groupby(["date", "status"]).sum().unstack().sort_index()` matrix). -/
def sortedUniqueDates (l : List Nat) : List Nat :=
  List.insertionSort (· ≤ ·) l.dedup

/-- The date index of the grouped matrix for a (filtered) table. -/
def groupDates (df : List Row) : List Nat :=
  sortedUniqueDates (df.map (·.date))

/-- The status columns of the grouped matrix: the distinct status labels. -/
def colStatuses (df : List Row) : List String :=
  (df.map (·.status)).dedup

/-- One cell of the grouped matrix: the sum of `n_facilities` over rows with
the given date and status (0 when no such row, matching `fill_value=0`). -/
def cellSum (df : List Row) (d : Nat) (s : String) : Int :=
  ((df.filter (fun r => r.date == d && r.status == s)).map (·.n_facilities)).sum

/-- `grouped.get("Energized", pd.Series([0]*len(grouped)))`: the Energized
column when it exists, otherwise an all-zero series of the same length. -/
def energizedTrend (df : List Row) : List Int :=
  if "Energized" ∈ colStatuses df then
    (groupDates df).map (fun d => cellSum df d "Energized")
  else
    List.replicate (groupDates df).length 0

/-- `grouped.drop(columns=["Energized"], errors="ignore").sum(axis=1)`: per
date, the sum over every non-Energized status column. -/
def notEnergizedTrend (df : List Row) : List Int :=
  (groupDates df).map (fun d =>
    (((colStatuses df).filter (fun s => !(s == "Energized"))).map
      (fun s => cellSum df d s)).sum)

/-- Python `str.title()`: uppercase each character that follows a non-letter,
lowercase the rest. -/
def titleChars : List Char → Bool → List Char
  | [], _ => []
  | c :: cs, prevAlpha =>
    (if prevAlpha then c.toLower else c.toUpper) :: titleChars cs c.isAlpha

def pyTitle (s : String) : String :=
  String.mk (titleChars s.data false)

/-- Floor of a rational as an integer. -/
def ratFloor (q : ℚ) : Int := Int.fdiv q.num (q.den : Int)

/-- Round to the nearest integer, ties to even (Python / numpy rounding). -/
def roundHalfEven (q : ℚ) : Int :=
  let f := ratFloor q
  let r := q - (f : ℚ)
  if r < 1 / 2 then f
  else if 1 / 2 < r then f + 1
  else if f % 2 = 0 then f else f + 1

/-- Python `round(q, 3)`. -/
def round3 (q : ℚ) : ℚ := (roundHalfEven (q * 1000) : ℚ) / 1000

/-- pandas `.round(1)`. -/
def round1 (q : ℚ) : ℚ := (roundHalfEven (q * 10) : ℚ) / 10

/-- The record returned by `extract_facility_summary`. -/
structure FacilitySummary where
  ftype : String
  target : Int
  energized : Int
  in_progress : Int
  planned : Int
  percent : ℚ
  increase : Int
  energized_trend : List Int
  dates : List String
deriving Repr, DecidableEq

/-- Embedding of `extract_facility_summary(df, facility_type, targets)`
(`facilities_helper_summary_statistics.py` lines 3-48).  The defensive
`df.copy()` and `pd.to_datetime` on already-valid dates leave the data
unchanged, so the pipeline starts at the type filter. -/
def extract_facility_summary (df : List Row) (facility_type : String)
    (targets : List (String × Int)) : FacilitySummary :=
  let fdf := filterType df facility_type
  let dates := groupDates fdf
  let etrend := energizedTrend fdf
  let ntrend := notEnergizedTrend fdf
  let target := dictGet targets facility_type (dictGet targets "Total" 0)
  let energized := etrend.getLastD 0
  let not_energized := ntrend.getLastD 0
  let planned := energized + not_energized
  let percent : ℚ := if 0 < target then (energized : ℚ) / (target : ℚ) else 0
  let increase := if 1 < etrend.length then
      etrend.getLastD 0 - etrend.dropLast.getLastD 0
    else 0
  { ftype := pyTitle facility_type
    target := target
    energized := energized
    in_progress := not_energized
    planned := planned
    percent := round3 percent
    increase := increase
    energized_trend := etrend
    dates := dates.map dateStr }

/-- The fixed pipeline ordering of the four canonical statuses
(`status_order` in `facilities_helper_change_log.py`). -/
def statusOrder : List String :=
  ["Under Design", "Tender launched", "Contract awarded", "Energized"]

/-- One row of the change-log table; `none` models a pandas `NaN`/`NA` cell. -/
structure ChangeLogEntry where
  status : String
  previous : Option Int
  current : Option Int
  change : Option Int
  percent_change : Option ℚ
deriving Repr, DecidableEq

/-- The distinct statuses having at least one row at date `d`
(the index of `df[df["date"] == d].groupby("status")["n_facilities"].sum()`). -/
def statusesAt (df : List Row) (d : Nat) : List String :=
  ((df.filter (fun r => r.date == d)).map (·.status)).dedup

/-- The column-level condition governing whether `.round(1)` on line 59 of
`facilities_helper_change_log.py` actually rounds: `Previous.replace(0,
pd.NA)` casts the `% Change` column to object dtype as soon as any status of
the union index has a zero previous count, and `Series.round` on an object
column is a silent no-op (pandas `>=` 2.1, which the file's
`Styler.map_index` call on line 111 requires).  So rounding takes effect only
when no previous count in the union index is zero. -/
def zeroPrevExists (df : List Row) (dBefore dLatest : Nat) : Bool :=
  ((statusesAt df dBefore ++ statusesAt df dLatest).dedup).any
    (fun s => cellSum df dBefore s == 0)

/-- Embedding of the change-log computation of `render_facility_change_log`
(`facilities_helper_change_log.py` lines 41-69) for a selected date pair:
per-date `groupby("status").sum()`, outer `concat` (union of the two status
indexes), `fillna(0)`, `Change`, and `% Change` (with `Previous` zeroes
replaced by `NA`, and rounded to one decimal only on the numeric-dtype path,
see `zeroPrevExists`), then `reindex(status_order)`, which drops
non-canonical statuses and inserts all-`NaN` rows for canonical statuses
absent from the union index. -/
def changeLogEntryFor (df : List Row) (dBefore dLatest : Nat) (s : String) :
    ChangeLogEntry :=
  if s ∈ (statusesAt df dBefore ++ statusesAt df dLatest).dedup then
    { status := s
      previous := some (cellSum df dBefore s)
      current := some (cellSum df dLatest s)
      change := some (cellSum df dLatest s - cellSum df dBefore s)
      percent_change :=
        if cellSum df dBefore s = 0 then none
        else if zeroPrevExists df dBefore dLatest then
          some (((cellSum df dLatest s - cellSum df dBefore s : Int) : ℚ)
            / ((cellSum df dBefore s : Int) : ℚ) * 100)
        else some (round1
          (((cellSum df dLatest s - cellSum df dBefore s : Int) : ℚ)
            / ((cellSum df dBefore s : Int) : ℚ) * 100)) }
  else
    { status := s, previous := none, current := none, change := none,
      percent_change := none }

def buildChangeLog (df : List Row) (dBefore dLatest : Nat) :
    List ChangeLogEntry :=
  statusOrder.map (changeLogEntryFor df dBefore dLatest)

/-! ### Helper lemmas -/

theorem round3_zero : round3 0 = 0 := by with_unfolding_all decide

theorem mem_sortedUniqueDates {d : Nat} {l : List Nat} :
    d ∈ sortedUniqueDates l ↔ d ∈ l := by
  unfold sortedUniqueDates
  rw [(List.perm_insertionSort _ _).mem_iff, List.mem_dedup]

theorem sortedUniqueDates_nodup (l : List Nat) : (sortedUniqueDates l).Nodup :=
  ((List.perm_insertionSort _ _).nodup_iff).mpr (List.nodup_dedup l)

theorem sortedUniqueDates_sorted (l : List Nat) :
    List.Sorted (· < ·) (sortedUniqueDates l) :=
  (List.sorted_insertionSort _ _).lt_of_le (sortedUniqueDates_nodup l)

theorem mem_colStatuses {df : List Row} {s : String} :
    s ∈ colStatuses df ↔ ∃ r ∈ df, r.status = s := by
  simp [colStatuses, List.mem_dedup, List.mem_map]

theorem cellSum_eq_zero_of_not_mem {df : List Row} {s : String}
    (h : s ∉ colStatuses df) (d : Nat) : cellSum df d s = 0 := by
  unfold cellSum
  have hnil : df.filter (fun r => r.date == d && r.status == s) = [] := by
    rw [List.filter_eq_nil_iff]
    intro r hr hp
    exact h (mem_colStatuses.mpr ⟨r, hr, by simpa using (Bool.and_elim_right hp)⟩)
  simp [hnil]

theorem getLastD_map_ne_nil {α β : Type} (f : α → β) {l : List α} (h : l ≠ [])
    (d₁ : β) (d₂ : α) : (l.map f).getLastD d₁ = f (l.getLastD d₂) := by
  cases hl : l.getLast? with
  | none => exact absurd (List.getLast?_eq_none_iff.mp hl) h
  | some a =>
    rw [List.getLastD_eq_getLast?, List.getLastD_eq_getLast?, List.getLast?_map, hl]
    rfl

/-! ### C2: spec example scenario -/

/-- The example table of the spec: rows (2024-01-01, Energized, School, 10),
(2024-02-01, Energized, School, 15), (2024-02-01, Under Design, School, 5). -/
def exampleTable : List Row :=
  [⟨mkDate 2024 1 1, "Energized", "School", 10⟩,
   ⟨mkDate 2024 2 1, "Energized", "School", 15⟩,
   ⟨mkDate 2024 2 1, "Under Design", "School", 5⟩]

set_option maxRecDepth 40000 in
/-- C2: on the spec's example table with targets School ↦ 100,
`extract_facility_summary(table, "School", targets)` yields energized = 15,
in_progress = 5, planned = 20, percent = 0.15, increase = 5,
dates = ["2024-01-01", "2024-02-01"], energized_trend = [10, 15]. -/
theorem extract_facility_summary_example :
    (extract_facility_summary exampleTable "School" [("School", 100)]).energized = 15
    ∧ (extract_facility_summary exampleTable "School" [("School", 100)]).in_progress = 5
    ∧ (extract_facility_summary exampleTable "School" [("School", 100)]).planned = 20
    ∧ (extract_facility_summary exampleTable "School" [("School", 100)]).percent = 15 / 100
    ∧ (extract_facility_summary exampleTable "School" [("School", 100)]).increase = 5
    ∧ (extract_facility_summary exampleTable "School" [("School", 100)]).dates
        = ["2024-01-01", "2024-02-01"]
    ∧ (extract_facility_summary exampleTable "School" [("School", 100)]).energized_trend
        = [10, 15] := by
  with_unfolding_all decide

/-! ### C3: zero-target guard -/

/-- C3: for every table, facility type and targets mapping whose resolved
target is 0, the summary's percent is 0; the computation is a total function
into ℚ, so no division error and no NaN/infinity can arise. -/
theorem percent_zero_target (df : List Row) (facility_type : String)
    (targets : List (String × Int))
    (h : dictGet targets facility_type (dictGet targets "Total" 0) = 0) :
    (extract_facility_summary df facility_type targets).percent = 0 := by
  show round3 (if 0 < dictGet targets facility_type (dictGet targets "Total" 0)
      then _ else 0) = 0
  rw [h]
  norm_num [round3_zero]

/-- C3 witness: a concrete call with resolved target 0 returns percent 0. -/
theorem percent_zero_target_witness :
    (extract_facility_summary exampleTable "School" [("School", 0)]).percent = 0 :=
  percent_zero_target exampleTable "School" [("School", 0)] (by with_unfolding_all decide)

/-! ### C5: two-level target fallback -/

/-- C5: target resolution is a two-level fallback: `targets[facility_type]`
when present, else `targets["Total"]` when present, else 0. -/
theorem target_two_level_fallback (df : List Row) (facility_type : String)
    (targets : List (String × Int)) :
    (∀ t, targets.lookup facility_type = some t →
        (extract_facility_summary df facility_type targets).target = t)
    ∧ (targets.lookup facility_type = none → ∀ t, targets.lookup "Total" = some t →
        (extract_facility_summary df facility_type targets).target = t)
    ∧ (targets.lookup facility_type = none → targets.lookup "Total" = none →
        (extract_facility_summary df facility_type targets).target = 0) := by
  have htgt : (extract_facility_summary df facility_type targets).target
      = dictGet targets facility_type (dictGet targets "Total" 0) := rfl
  refine ⟨fun t ht => ?_, fun hn t ht => ?_, fun hn hn2 => ?_⟩
  · rw [htgt]; unfold dictGet; rw [ht]
  · rw [htgt]; unfold dictGet; rw [hn, ht]
  · rw [htgt]; unfold dictGet; rw [hn, hn2]

/-- C5 witness: with targets holding only Total ↦ 700 and a facility type
absent from the mapping, the summary's target is 700. -/
theorem target_two_level_fallback_witness :
    (extract_facility_summary [] "Clinic" [("Total", 700)]).target = 700 :=
  (target_two_level_fallback [] "Clinic" [("Total", 700)]).2.1 rfl 700 rfl

/-! ### C6: trend length, date ordering, no duplicates -/

theorem digitChar_inj {x y : Nat} (hx : x < 10) (hy : y < 10)
    (h : digitChar x = digitChar y) : x = y := by
  interval_cases x <;> interval_cases y <;> first | rfl | (revert h; decide)

theorem dateStr_data (n : Nat) :
    (dateStr n).data =
      [digitChar (n / 10000 / 1000 % 10), digitChar (n / 10000 / 100 % 10),
       digitChar (n / 10000 / 10 % 10), digitChar (n / 10000 % 10), '-',
       digitChar (n / 100 % 100 / 10 % 10), digitChar (n / 100 % 100 % 10), '-',
       digitChar (n % 100 / 10 % 10), digitChar (n % 100 % 10)] := rfl

theorem dateStr_inj {a b : Nat} (ha : a < 100000000) (hb : b < 100000000)
    (h : dateStr a = dateStr b) : a = b := by
  have hd := congrArg String.data h
  rw [dateStr_data, dateStr_data] at hd
  simp only [List.cons.injEq, and_true] at hd
  obtain ⟨h1, h2, h3, h4, -, h5, h6, -, h7, h8⟩ := hd
  have e1 := digitChar_inj (Nat.mod_lt _ (by norm_num)) (Nat.mod_lt _ (by norm_num)) h1
  have e2 := digitChar_inj (Nat.mod_lt _ (by norm_num)) (Nat.mod_lt _ (by norm_num)) h2
  have e3 := digitChar_inj (Nat.mod_lt _ (by norm_num)) (Nat.mod_lt _ (by norm_num)) h3
  have e4 := digitChar_inj (Nat.mod_lt _ (by norm_num)) (Nat.mod_lt _ (by norm_num)) h4
  have e5 := digitChar_inj (Nat.mod_lt _ (by norm_num)) (Nat.mod_lt _ (by norm_num)) h5
  have e6 := digitChar_inj (Nat.mod_lt _ (by norm_num)) (Nat.mod_lt _ (by norm_num)) h6
  have e7 := digitChar_inj (Nat.mod_lt _ (by norm_num)) (Nat.mod_lt _ (by norm_num)) h7
  have e8 := digitChar_inj (Nat.mod_lt _ (by norm_num)) (Nat.mod_lt _ (by norm_num)) h8
  omega

theorem mem_of_mem_filterType {r : Row} {df : List Row} {ft : String}
    (h : r ∈ filterType df ft) : r ∈ df := by
  unfold filterType at h
  split at h
  · exact h
  · exact (List.mem_filter.mp h).1

/-- C6: the summary's dates and energized_trend have equal length, the dates
are exactly the distinct dates of the filtered slice in strictly ascending
calendar order, and (for dates `strftime` can render with a 4-digit year,
which covers every pandas-representable timestamp) the formatted date labels
contain no duplicates. -/
theorem dates_trend_aligned (df : List Row) (facility_type : String)
    (targets : List (String × Int)) :
    (extract_facility_summary df facility_type targets).dates.length
        = (extract_facility_summary df facility_type targets).energized_trend.length
    ∧ (extract_facility_summary df facility_type targets).dates
        = (groupDates (filterType df facility_type)).map dateStr
    ∧ List.Sorted (· < ·) (groupDates (filterType df facility_type))
    ∧ ((∀ r ∈ df, r.date < 100000000) →
        (extract_facility_summary df facility_type targets).dates.Nodup) := by
  refine ⟨?_, rfl, sortedUniqueDates_sorted _, ?_⟩
  · show ((groupDates (filterType df facility_type)).map dateStr).length
        = (energizedTrend (filterType df facility_type)).length
    unfold energizedTrend
    split <;> simp
  · intro hbound
    show ((groupDates (filterType df facility_type)).map dateStr).Nodup
    refine List.Nodup.map_on ?_ (sortedUniqueDates_nodup _)
    intro x hx y hy hxy
    have hmx : x ∈ (filterType df facility_type).map (·.date) :=
      mem_sortedUniqueDates.mp hx
    have hmy : y ∈ (filterType df facility_type).map (·.date) :=
      mem_sortedUniqueDates.mp hy
    obtain ⟨rx, hrx, hrxd⟩ := List.mem_map.mp hmx
    obtain ⟨ry, hry, hryd⟩ := List.mem_map.mp hmy
    refine dateStr_inj ?_ ?_ hxy
    · exact hrxd ▸ hbound rx (mem_of_mem_filterType hrx)
    · exact hryd ▸ hbound ry (mem_of_mem_filterType hry)

/-- C6 witness: on the example table the date labels are pairwise distinct
and aligned with the trend. -/
theorem dates_trend_aligned_witness :
    (∀ r ∈ exampleTable, r.date < 100000000)
    ∧ (extract_facility_summary exampleTable "School" [("School", 100)]).dates.Nodup :=
  ⟨by decide,
   (dates_trend_aligned exampleTable "School" [("School", 100)]).2.2.2 (by decide)⟩

/-! ### C7: increase = latest minus second-latest energized count -/

theorem getLastD_replicate_zero : ∀ n : Nat, (List.replicate n (0 : Int)).getLastD 0 = 0 := by
  intro n
  induction n with
  | zero => rfl
  | succ k ih => rw [List.replicate_succ, List.getLastD_cons]; exact ih

theorem dropLast_replicate (a : Int) : ∀ n : Nat,
    (List.replicate n a).dropLast = List.replicate (n - 1) a := by
  intro n
  induction n with
  | zero => rfl
  | succ k ih =>
    cases k with
    | zero => rfl
    | succ m =>
      show (a :: a :: List.replicate m a).dropLast = a :: List.replicate m a
      rw [List.dropLast_cons₂]
      exact congrArg (a :: ·) ih

theorem energizedTrend_length (df : List Row) :
    (energizedTrend df).length = (groupDates df).length := by
  unfold energizedTrend
  split <;> simp

/-- C7: when the filtered slice has at least two distinct dates, increase is
the Energized count at the latest date minus the Energized count at the
second-latest date; with fewer than two distinct dates, increase is 0. -/
theorem increase_latest_minus_previous (df : List Row) (facility_type : String)
    (targets : List (String × Int)) :
    (2 ≤ (groupDates (filterType df facility_type)).length →
      (extract_facility_summary df facility_type targets).increase =
        cellSum (filterType df facility_type)
            ((groupDates (filterType df facility_type)).getLastD 0) "Energized"
          - cellSum (filterType df facility_type)
            ((groupDates (filterType df facility_type)).dropLast.getLastD 0) "Energized")
    ∧ ((groupDates (filterType df facility_type)).length < 2 →
      (extract_facility_summary df facility_type targets).increase = 0) := by
  have hinc : (extract_facility_summary df facility_type targets).increase
      = if 1 < (energizedTrend (filterType df facility_type)).length then
          (energizedTrend (filterType df facility_type)).getLastD 0
            - (energizedTrend (filterType df facility_type)).dropLast.getLastD 0
        else 0 := rfl
  have hlen := energizedTrend_length (filterType df facility_type)
  constructor
  · intro h2
    rw [hinc, if_pos (by omega)]
    have hne : groupDates (filterType df facility_type) ≠ [] := by
      intro hnil; rw [hnil] at h2; simp at h2
    have hne2 : (groupDates (filterType df facility_type)).dropLast ≠ [] := by
      intro hnil
      have := congrArg List.length hnil
      simp at this
      omega
    unfold energizedTrend
    by_cases hE : "Energized" ∈ colStatuses (filterType df facility_type)
    · rw [if_pos hE, ← List.map_dropLast,
        getLastD_map_ne_nil _ hne _ 0, getLastD_map_ne_nil _ hne2 _ 0]
    · rw [if_neg hE, cellSum_eq_zero_of_not_mem hE, cellSum_eq_zero_of_not_mem hE,
        dropLast_replicate, getLastD_replicate_zero, getLastD_replicate_zero]
  · intro hlt
    rw [hinc, if_neg (by omega)]

/-- A table with two distinct dates, for the C7 witness. -/
def twoDatesTable : List Row :=
  [⟨mkDate 2024 1 1, "Energized", "School", 10⟩,
   ⟨mkDate 2024 2 1, "Energized", "School", 15⟩]

/-- A table with exactly one distinct date, for the C7 witness. -/
def oneDateTable : List Row :=
  [⟨mkDate 2024 1 1, "Energized", "School", 10⟩,
   ⟨mkDate 2024 1 1, "Under Design", "School", 4⟩]

/-- C7 witness: two-date slice takes the difference of the last two Energized
counts; a one-date slice yields increase 0. -/
theorem increase_latest_minus_previous_witness :
    (2 ≤ (groupDates (filterType twoDatesTable "Total")).length
      ∧ (extract_facility_summary twoDatesTable "Total" []).increase =
          cellSum (filterType twoDatesTable "Total")
              ((groupDates (filterType twoDatesTable "Total")).getLastD 0) "Energized"
            - cellSum (filterType twoDatesTable "Total")
              ((groupDates (filterType twoDatesTable "Total")).dropLast.getLastD 0) "Energized")
    ∧ ((groupDates (filterType oneDateTable "Total")).length < 2
      ∧ (extract_facility_summary oneDateTable "Total" []).increase = 0) :=
  ⟨⟨by with_unfolding_all decide,
    (increase_latest_minus_previous twoDatesTable "Total" []).1
      (by with_unfolding_all decide)⟩,
   ⟨by with_unfolding_all decide,
    (increase_latest_minus_previous oneDateTable "Total" []).2
      (by with_unfolding_all decide)⟩⟩

/-! ### C8: purity and absence of input mutation -/

/-- Heap model for the aliasing behaviour of `extract_facility_summary`:
`caller` is the table object the caller passed in, `curr` is the table the
local variable `df` currently references, and `aliased` records whether the
local variable still references the caller's object. -/
structure AliasState where
  caller : List Row
  curr : List Row
  aliased : Bool
deriving Repr, DecidableEq

/-- `df = df.copy()` (line 4): rebinds the local name to a fresh object with
the same contents, ending the aliasing of the caller's table. -/
def copyOp (s : AliasState) : AliasState :=
  { s with aliased := false }

/-- `df["date"] = pd.to_datetime(df["date"])` (line 5): an in-place column
write on whatever object the local variable references; it reaches the
caller's table exactly when the local still aliases it.  `f` is the date
coercion applied to each value. -/
def setDateCol (f : Nat → Nat) (s : AliasState) : AliasState :=
  let updated := s.curr.map (fun r => { r with date := f r.date })
  { caller := if s.aliased then updated else s.caller
    curr := updated
    aliased := s.aliased }

/-- `df = df[mask]` (lines 8-9): rebinds the local name to a fresh filtered
object. -/
def rebindFilter (p : Row → Bool) (s : AliasState) : AliasState :=
  { s with curr := s.curr.filter p, aliased := false }

/-- The sequence of table-object operations `extract_facility_summary`
performs, tracked on the alias state (all later steps only read `curr`). -/
def summaryBodyState (f : Nat → Nat) (df : List Row) (facility_type : String) :
    AliasState :=
  let s1 := copyOp { caller := df, curr := df, aliased := true }
  let s2 := setDateCol f s1
  if lowerStr facility_type == "total" then s2
  else rebindFilter (fun r => lowerStr r.ftype == lowerStr facility_type) s2

/-- C8: the aggregator is a pure function — equal input tables give equal
summaries — and, because the defensive copy precedes the in-place date
write, the caller's table is unchanged after the body runs, whatever date
coercion the write applies. -/
theorem summary_pure_no_mutation (df df' : List Row) (facility_type : String)
    (targets : List (String × Int)) (f : Nat → Nat) (h : df = df') :
    extract_facility_summary df facility_type targets
        = extract_facility_summary df' facility_type targets
    ∧ (summaryBodyState f df facility_type).caller = df := by
  subst h
  refine ⟨rfl, ?_⟩
  unfold summaryBodyState copyOp setDateCol rebindFilter
  split <;> rfl

/-- C8 witness: on the example table the summary is reproducible and the
caller's table is returned intact. -/
theorem summary_pure_no_mutation_witness :
    extract_facility_summary exampleTable "School" [("School", 100)]
        = extract_facility_summary exampleTable "School" [("School", 100)]
    ∧ (summaryBodyState id exampleTable "School").caller = exampleTable :=
  summary_pure_no_mutation exampleTable exampleTable "School" [("School", 100)] id rfl

/-! ### C10: case-insensitive row filter, case-sensitive target lookup -/

/-- Targets mapping used by the C10 scenario. -/
def c10Targets : List (String × Int) := [("School", 100), ("Total", 700)]

/-- C10: requesting "school" filters exactly the rows "School" would (the
row filter lowercases both sides), yet the target lookup is case-sensitive:
"school" misses the "School" key and falls back to Total = 700, while
"School" hits it and gets 100.  On the example table, "school" aggregates
the School rows (energized 15). -/
theorem filter_case_insensitive_target_case_sensitive (df : List Row) :
    (extract_facility_summary df "school" c10Targets).target = 700
    ∧ (extract_facility_summary df "School" c10Targets).target = 100
    ∧ (extract_facility_summary df "school" c10Targets).energized
        = (extract_facility_summary df "School" c10Targets).energized
    ∧ (extract_facility_summary df "school" c10Targets).energized_trend
        = (extract_facility_summary df "School" c10Targets).energized_trend
    ∧ (extract_facility_summary df "school" c10Targets).in_progress
        = (extract_facility_summary df "School" c10Targets).in_progress
    ∧ (extract_facility_summary df "school" c10Targets).dates
        = (extract_facility_summary df "School" c10Targets).dates
    ∧ (extract_facility_summary exampleTable "school" c10Targets).energized = 15 := by
  have h1 : lowerStr "School" = "school" := by decide
  have h2 : lowerStr "school" = "school" := by decide
  have hf : filterType df "school" = filterType df "School" := by
    unfold filterType
    rw [h1, h2]
  refine ⟨?_, ?_, ?_, ?_, ?_, ?_, ?_⟩
  · show dictGet c10Targets "school" (dictGet c10Targets "Total" 0) = 700
    decide
  · show dictGet c10Targets "School" (dictGet c10Targets "Total" 0) = 100
    decide
  · show (energizedTrend (filterType df "school")).getLastD 0
        = (energizedTrend (filterType df "School")).getLastD 0
    rw [hf]
  · show energizedTrend (filterType df "school")
        = energizedTrend (filterType df "School")
    rw [hf]
  · show (notEnergizedTrend (filterType df "school")).getLastD 0
        = (notEnergizedTrend (filterType df "School")).getLastD 0
    rw [hf]
  · show (groupDates (filterType df "school")).map dateStr
        = (groupDates (filterType df "School")).map dateStr
    rw [hf]
  · with_unfolding_all decide

/-! ### C1: change-log reindexing -/

/-- Status `s` has at least one row at one of the two selected dates. -/
def statusPresentAt (df : List Row) (d1 d2 : Nat) (s : String) : Prop :=
  ∃ r ∈ df, r.status = s ∧ (r.date = d1 ∨ r.date = d2)

theorem mem_statuses_union_iff {df : List Row} {d1 d2 : Nat} {s : String} :
    s ∈ (statusesAt df d1 ++ statusesAt df d2).dedup
      ↔ statusPresentAt df d1 d2 s := by
  simp only [statusesAt, statusPresentAt, List.mem_dedup, List.mem_append,
    List.mem_map, List.mem_filter, beq_iff_eq]
  constructor
  · rintro (⟨r, ⟨hr, hd⟩, hs⟩ | ⟨r, ⟨hr, hd⟩, hs⟩)
    · exact ⟨r, hr, hs, Or.inl hd⟩
    · exact ⟨r, hr, hs, Or.inr hd⟩
  · rintro ⟨r, hr, hs, hd | hd⟩
    · exact Or.inl ⟨r, ⟨hr, hd⟩, hs⟩
    · exact Or.inr ⟨r, ⟨hr, hd⟩, hs⟩

instance (df : List Row) (d1 d2 : Nat) (s : String) :
    Decidable (statusPresentAt df d1 d2 s) :=
  decidable_of_iff _ mem_statuses_union_iff

theorem changeLogEntryFor_status (df : List Row) (d1 d2 : Nat) (s : String) :
    (changeLogEntryFor df d1 d2 s).status = s := by
  unfold changeLogEntryFor
  split <;> rfl

/-- A table whose rows only ever carry the Energized status, so the other
three canonical statuses have no rows at either date. -/
def energizedOnlyTable : List Row :=
  [⟨mkDate 2024 1 1, "Energized", "School", 10⟩,
   ⟨mkDate 2024 2 1, "Energized", "School", 15⟩]

/-- C1 counterexample: on a table where Under Design, Tender launched and
Contract awarded have no rows at either selected date, the change log still
has 4 entries but those three statuses carry NaN (missing) previous and
current counts — not 0 — because `fillna(0)` runs before
`reindex(status_order)`. -/
theorem changeLog_missing_status_nan_counts :
    ((buildChangeLog energizedOnlyTable (mkDate 2024 1 1) (mkDate 2024 2 1)).map
        (fun e => e.previous) = [none, none, none, some 10])
    ∧ ((buildChangeLog energizedOnlyTable (mkDate 2024 1 1) (mkDate 2024 2 1)).map
        (fun e => e.current) = [none, none, none, some 15])
    ∧ (none ≠ some (0 : Int)) := by
  with_unfolding_all decide

/-- C1 (amended): for any table and any two dates the change log has exactly
4 entries, one per canonical status in pipeline order; a canonical status
with rows at at least one of the two dates gets its summed counts (0 for a
side with no rows); but a canonical status with no rows at either date gets
missing (NaN) previous and current counts rather than 0. -/
theorem changeLog_reindex_amended (df : List Row) (d1 d2 : Nat) :
    ((buildChangeLog df d1 d2).map (fun e => e.status) = statusOrder)
    ∧ ∀ e ∈ buildChangeLog df d1 d2,
        (statusPresentAt df d1 d2 e.status →
          e.previous = some (cellSum df d1 e.status)
            ∧ e.current = some (cellSum df d2 e.status))
        ∧ (¬ statusPresentAt df d1 d2 e.status →
          e.previous = none ∧ e.current = none) := by
  constructor
  · show (statusOrder.map (changeLogEntryFor df d1 d2)).map (fun e => e.status)
        = statusOrder
    rw [List.map_map]
    have h : ∀ s ∈ statusOrder,
        ((fun e => ChangeLogEntry.status e) ∘ changeLogEntryFor df d1 d2) s
          = id s := fun s _ => changeLogEntryFor_status df d1 d2 s
    rw [List.map_congr_left h, List.map_id]
  · intro e he
    obtain ⟨s, hs, rfl⟩ := List.mem_map.mp he
    rw [changeLogEntryFor_status]
    constructor
    · intro hp
      have hp' : s ∈ (statusesAt df d1 ++ statusesAt df d2).dedup :=
        mem_statuses_union_iff.mpr hp
      unfold changeLogEntryFor
      rw [if_pos hp']
      exact ⟨rfl, rfl⟩
    · intro hn
      have hn' : s ∉ (statusesAt df d1 ++ statusesAt df d2).dedup :=
        fun hmem => hn (mem_statuses_union_iff.mp hmem)
      unfold changeLogEntryFor
      rw [if_neg hn']
      exact ⟨rfl, rfl⟩

/-- Default entry used to index into concrete change logs. -/
def dummyEntry : ChangeLogEntry :=
  { status := "", previous := none, current := none, change := none,
    percent_change := none }

/-- C1 witness: the amended theorem applied to the counterexample table, at
the Energized entry (present at both dates). -/
theorem changeLog_reindex_amended_witness :
    ((buildChangeLog energizedOnlyTable (mkDate 2024 1 1) (mkDate 2024 2 1)).getD
        3 dummyEntry).previous
      = some (cellSum energizedOnlyTable (mkDate 2024 1 1)
          ((buildChangeLog energizedOnlyTable (mkDate 2024 1 1)
            (mkDate 2024 2 1)).getD 3 dummyEntry).status) :=
  (((changeLog_reindex_amended energizedOnlyTable (mkDate 2024 1 1)
      (mkDate 2024 2 1)).2 _ (by with_unfolding_all decide)).1
    (by with_unfolding_all decide)).1

/-! ### C4: percent_change semantics -/

/-- A table where Under Design goes from 3 to 4 facilities, so the raw
percentage change 100/3 is not representable after `.round(1)`. -/
def underDesignTable : List Row :=
  [⟨mkDate 2024 1 1, "Under Design", "School", 3⟩,
   ⟨mkDate 2024 2 1, "Under Design", "School", 4⟩]

/-- C4 counterexample: with previous = 3 and change = 1 the code stores the
rounded value 33.3, which differs from change / previous * 100 = 100/3, so
percent_change does not equal the exact ratio the claim states. -/
theorem percent_change_rounding_counterexample :
    ((buildChangeLog underDesignTable (mkDate 2024 1 1) (mkDate 2024 2 1)).map
        (fun e => e.previous) = [some 3, none, none, none])
    ∧ ((buildChangeLog underDesignTable (mkDate 2024 1 1) (mkDate 2024 2 1)).map
        (fun e => e.change) = [some 1, none, none, none])
    ∧ ((buildChangeLog underDesignTable (mkDate 2024 1 1) (mkDate 2024 2 1)).map
        (fun e => e.percent_change) = [some (333 / 10), none, none, none])
    ∧ ((333 : ℚ) / 10 ≠ (1 : ℚ) / (3 : ℚ) * 100) := by
  with_unfolding_all decide

/-- C4 (amended): for every change-log entry, percent_change is null
(missing) when previous_count is 0 or itself missing; when previous_count is
present and nonzero, percent_change equals change / previous_count * 100
rounded half-to-even to one decimal place if no status of the union index
has a zero previous count, and equals the unrounded
change / previous_count * 100 otherwise, because `Previous.replace(0,
pd.NA)` then casts the column to object dtype, where `.round(1)` is a silent
no-op; the computation is total, so no division error is possible. -/
theorem percent_change_amended (df : List Row) (d1 d2 : Nat) :
    ∀ e ∈ buildChangeLog df d1 d2,
      (∀ p ch, e.previous = some p → e.change = some ch → p ≠ 0 →
        (zeroPrevExists df d1 d2 = false →
          e.percent_change = some (round1 ((ch : ℚ) / (p : ℚ) * 100)))
        ∧ (zeroPrevExists df d1 d2 = true →
          e.percent_change = some ((ch : ℚ) / (p : ℚ) * 100)))
      ∧ (e.previous = some 0 → e.percent_change = none)
      ∧ (e.previous = none → e.percent_change = none) := by
  intro e he
  obtain ⟨s, hs, rfl⟩ := List.mem_map.mp he
  unfold changeLogEntryFor
  by_cases hp : s ∈ (statusesAt df d1 ++ statusesAt df d2).dedup
  · rw [if_pos hp]
    refine ⟨fun p ch h1 h2 hne => ⟨fun hz => ?_, fun hz => ?_⟩,
      fun h0 => ?_, fun hnone => ?_⟩
    · have hp' : cellSum df d1 s = p := Option.some.inj h1
      have hch : cellSum df d2 s - cellSum df d1 s = ch := Option.some.inj h2
      show (if cellSum df d1 s = 0 then none
          else if zeroPrevExists df d1 d2 then
            some (((cellSum df d2 s - cellSum df d1 s : Int) : ℚ)
              / ((cellSum df d1 s : Int) : ℚ) * 100)
          else some (round1
            (((cellSum df d2 s - cellSum df d1 s : Int) : ℚ)
              / ((cellSum df d1 s : Int) : ℚ) * 100)))
        = some (round1 ((ch : ℚ) / (p : ℚ) * 100))
      rw [if_neg (by rw [hp']; exact hne), if_neg (by simp [hz]), hch, hp']
    · have hp' : cellSum df d1 s = p := Option.some.inj h1
      have hch : cellSum df d2 s - cellSum df d1 s = ch := Option.some.inj h2
      show (if cellSum df d1 s = 0 then none
          else if zeroPrevExists df d1 d2 then
            some (((cellSum df d2 s - cellSum df d1 s : Int) : ℚ)
              / ((cellSum df d1 s : Int) : ℚ) * 100)
          else some (round1
            (((cellSum df d2 s - cellSum df d1 s : Int) : ℚ)
              / ((cellSum df d1 s : Int) : ℚ) * 100)))
        = some ((ch : ℚ) / (p : ℚ) * 100)
      rw [if_neg (by rw [hp']; exact hne), if_pos hz, hch, hp']
    · have hp' : cellSum df d1 s = 0 := Option.some.inj h0
      show (if cellSum df d1 s = 0 then none else _) = none
      rw [if_pos hp']
    · exact absurd hnone (by simp)
  · rw [if_neg hp]
    exact ⟨fun p ch h1 => absurd h1 (by simp), fun h0 => absurd h0 (by simp),
      fun _ => rfl⟩

/-- Like `underDesignTable` but with an extra Energized row at the second
date only, so Energized's previous count is the fillna zero that flips the
`% Change` column to object dtype and disables rounding for the whole column. -/
def mixedPrevTable : List Row :=
  [⟨mkDate 2024 1 1, "Under Design", "School", 3⟩,
   ⟨mkDate 2024 2 1, "Under Design", "School", 4⟩,
   ⟨mkDate 2024 2 1, "Energized", "School", 7⟩]

/-- C4 witness: the amended theorem applied to the Under Design entry with
previous = 3 and change = 1, on a table with no zero previous count (rounded
to 33.3) and on one with a zero previous count (unrounded 100/3). -/
theorem percent_change_amended_witness :
    ((buildChangeLog underDesignTable (mkDate 2024 1 1) (mkDate 2024 2 1)).getD
        0 dummyEntry).percent_change
      = some (round1 ((1 : Int) / ((3 : Int) : ℚ) * 100))
    ∧ ((buildChangeLog mixedPrevTable (mkDate 2024 1 1) (mkDate 2024 2 1)).getD
        0 dummyEntry).percent_change
      = some ((1 : Int) / ((3 : Int) : ℚ) * 100) :=
  ⟨((percent_change_amended underDesignTable (mkDate 2024 1 1) (mkDate 2024 2 1)
      _ (by with_unfolding_all decide)).1 3 1
    (by with_unfolding_all decide) (by with_unfolding_all decide)
    (by decide)).1 (by with_unfolding_all decide),
   ((percent_change_amended mixedPrevTable (mkDate 2024 1 1) (mkDate 2024 2 1)
      _ (by with_unfolding_all decide)).1 3 1
    (by with_unfolding_all decide) (by with_unfolding_all decide)
    (by decide)).2 (by with_unfolding_all decide)⟩

/-! ### C9: non-canonical statuses are silently discarded -/

theorem cellSum_filter_canonical {df : List Row} {s : String}
    (hs : s ∈ statusOrder) (d : Nat) :
    cellSum (df.filter (fun r => decide (r.status ∈ statusOrder))) d s
      = cellSum df d s := by
  unfold cellSum
  rw [List.filter_filter]
  congr 2
  refine List.filter_congr ?_
  intro r _
  cases hpr : (r.date == d && r.status == s) with
  | true =>
    have hstat : r.status = s := by
      have := (Bool.and_eq_true _ _).mp hpr
      exact beq_iff_eq.mp this.2
    simp [hpr, hstat ▸ hs]
  | false => simp [hpr]

theorem statusPresentAt_filter_canonical {df : List Row} {d1 d2 : Nat}
    {s : String} (hs : s ∈ statusOrder) :
    statusPresentAt (df.filter (fun r => decide (r.status ∈ statusOrder))) d1 d2 s
      ↔ statusPresentAt df d1 d2 s := by
  unfold statusPresentAt
  constructor
  · rintro ⟨r, hr, hrs, hrd⟩
    exact ⟨r, (List.mem_filter.mp hr).1, hrs, hrd⟩
  · rintro ⟨r, hr, hrs, hrd⟩
    refine ⟨r, List.mem_filter.mpr ⟨hr, ?_⟩, hrs, hrd⟩
    exact decide_eq_true (hrs ▸ hs)

/-- C9: every change-log entry carries one of the four canonical statuses,
and rows whose status is outside the canonical set contribute to no entry's
previous_count or current_count: dropping them from the table leaves status,
previous and current of every entry unchanged (the rows themselves are
silently discarded by the reindex step).  Note that such rows can still
affect percent_change, by putting a zero into the Previous column and thus
flipping the `% Change` column to the unrounded object-dtype path — the
claim says nothing about percent_change, so the theorem is restricted to the
fields it names. -/
theorem changeLog_noncanonical_discarded (df : List Row) (d1 d2 : Nat) :
    (∀ e ∈ buildChangeLog df d1 d2, e.status ∈ statusOrder)
    ∧ (buildChangeLog df d1 d2).map (fun e => (e.status, e.previous, e.current))
        = ((buildChangeLog
            (df.filter (fun r => decide (r.status ∈ statusOrder))) d1 d2).map
            (fun e => (e.status, e.previous, e.current))) := by
  constructor
  · intro e he
    obtain ⟨s, hs, rfl⟩ := List.mem_map.mp he
    rw [changeLogEntryFor_status]
    exact hs
  · unfold buildChangeLog
    rw [List.map_map, List.map_map]
    refine List.map_congr_left ?_
    intro s hs
    simp only [Function.comp]
    have hiff : s ∈ (statusesAt
          (df.filter (fun r => decide (r.status ∈ statusOrder))) d1
        ++ statusesAt
          (df.filter (fun r => decide (r.status ∈ statusOrder))) d2).dedup
        ↔ s ∈ (statusesAt df d1 ++ statusesAt df d2).dedup := by
      rw [mem_statuses_union_iff, mem_statuses_union_iff]
      exact statusPresentAt_filter_canonical hs
    by_cases hp : s ∈ (statusesAt df d1 ++ statusesAt df d2).dedup
    · unfold changeLogEntryFor
      rw [if_pos hp, if_pos (hiff.mpr hp)]
      rw [cellSum_filter_canonical hs d1, cellSum_filter_canonical hs d2]
    · unfold changeLogEntryFor
      rw [if_neg hp, if_neg (fun hmem => hp (hiff.mp hmem))]

/-- A table containing a row with the non-canonical status label Foo at the
second date only, for the C9 witness.  (This is also the configuration where
the Foo row does change percent_change — its fillna zero in Previous flips
the column to the unrounded path — while leaving status, previous and
current of every entry untouched.) -/
def bogusStatusTable : List Row :=
  [⟨mkDate 2024 1 1, "Energized", "School", 3⟩,
   ⟨mkDate 2024 2 1, "Energized", "School", 4⟩,
   ⟨mkDate 2024 2 1, "Foo", "School", 4⟩]

/-- C9 witness: on a table with a bogus Foo status, every entry's status is
canonical and the statuses and counts of the change log equal those computed
after dropping the Foo row. -/
theorem changeLog_noncanonical_discarded_witness :
    ((buildChangeLog bogusStatusTable (mkDate 2024 1 1) (mkDate 2024 2 1)).getD
        0 dummyEntry).status ∈ statusOrder
    ∧ (buildChangeLog bogusStatusTable (mkDate 2024 1 1) (mkDate 2024 2 1)).map
          (fun e => (e.status, e.previous, e.current))
        = ((buildChangeLog
            (bogusStatusTable.filter (fun r => decide (r.status ∈ statusOrder)))
            (mkDate 2024 1 1) (mkDate 2024 2 1)).map
            (fun e => (e.status, e.previous, e.current))) :=
  ⟨(changeLog_noncanonical_discarded bogusStatusTable (mkDate 2024 1 1)
      (mkDate 2024 2 1)).1 _ (by with_unfolding_all decide),
   (changeLog_noncanonical_discarded bogusStatusTable (mkDate 2024 1 1)
      (mkDate 2024 2 1)).2⟩
